import Mathlib

/-!
Formal model of `optn.py`, a command-line calculator for short-put and
covered-call option returns.

Calendar dates are modelled by their proleptic Gregorian ordinal
(`date.toordinal()` in CPython: day 1 is 0001-01-01, a Monday), the very
representation CPython's `datetime.date` uses for date subtraction and
`timedelta` addition.  Money amounts are modelled as exact rationals; the
binary floating-point rounding of Python floats is not modelled.  Python
strings are modelled as lists of characters.
-/

/-- Python `date.weekday()`: Monday = 0 … Sunday = 6.  Ordinal 1 (0001-01-01) is a
Monday, so the weekday of an ordinal `o` is `(o + 6) % 7`. -/
def weekday (o : ℕ) : ℕ := (o + 6) % 7

/-- The value `ceil(n / 7)` for a nonnegative integer `n`: the source applies
`math.ceil` to an exact float quotient; for the integer arguments that occur
(all well below `2^53`) this equals the integer ceiling `(n + 6) / 7`. -/
def ceil7 (n : ℕ) : ℕ := (n + 6) / 7

/-- Function `weekdays_between` from the source, for `start_date ≤ end_date` (both
calculators reject `expiry < open` before calling it):
`startnum, delta = start_date.weekday(), (end_date - start_date).days + 1`,
Saturdays counted as `ceil((startnum+2+delta)/7) - ceil((startnum+2)/7)`,
Sundays with offset `+1`, result `delta - num_saturdays - num_sundays`
(a Python `int`, modelled in `ℤ`). -/
def weekdays_between (start_date end_date : ℕ) : ℤ :=
  let startnum := weekday start_date
  let delta := end_date + 1 - start_date
  let num_saturdays := ceil7 (startnum + 2 + delta) - ceil7 (startnum + 2)
  let num_sundays := ceil7 (startnum + 1 + delta) - ceil7 (startnum + 1)
  (delta : ℤ) - (num_saturdays : ℤ) - (num_sundays : ℤ)

/-- Brute-force day-by-day count of the days in the inclusive range
`[start_date, end_date]` whose weekday is Monday–Friday (not Saturday and
not Sunday). -/
def brute_weekday_count (start_date end_date : ℕ) : ℕ :=
  (List.range (end_date + 1 - start_date)).countP
    (fun j => decide (weekday (start_date + j) < 5))

lemma ceil7_add_count (a d : ℕ) :
    ceil7 (a + d) =
      ceil7 a + (List.range d).countP (fun j => decide ((a + j) % 7 = 0)) := by
  induction d with
  | zero => simp
  | succ n ih =>
    rw [List.range_succ, List.countP_append]
    have h2 : ceil7 (a + (n + 1)) = ceil7 (a + n) + if 7 ∣ (a + n + 6) + 1 then 1 else 0 := by
      unfold ceil7
      have h1 : a + (n + 1) + 6 = (a + n + 6) + 1 := by ring
      rw [h1, Nat.succ_div]
    rw [h2, ih]
    simp only [List.countP_cons, List.countP_nil, decide_eq_true_eq]
    have h3 : (7 ∣ (a + n + 6) + 1) ↔ ((a + n) % 7 = 0) := by omega
    split_ifs <;> omega

lemma count_partition (b d : ℕ) :
    (List.range d).countP (fun j => decide ((b + j) % 7 < 5)) +
      (List.range d).countP (fun j => decide ((b + j) % 7 = 5)) +
      (List.range d).countP (fun j => decide ((b + j) % 7 = 6)) = d := by
  induction d with
  | zero => simp
  | succ n ih =>
    rw [List.range_succ]
    simp only [List.countP_append, List.countP_cons, List.countP_nil, decide_eq_true_eq]
    have h7 : (b + n) % 7 < 7 := Nat.mod_lt _ (by norm_num)
    split_ifs <;> omega

lemma weekdays_between_eq_count (s e : ℕ) (_h : s ≤ e) :
    weekdays_between s e = (brute_weekday_count s e : ℤ) := by
  simp only [weekdays_between, brute_weekday_count]
  have hsat := ceil7_add_count (weekday s + 2) (e + 1 - s)
  have hsun := ceil7_add_count (weekday s + 1) (e + 1 - s)
  have hpart := count_partition (s + 6) (e + 1 - s)
  have e1 : (List.range (e + 1 - s)).countP (fun j => decide ((weekday s + 2 + j) % 7 = 0))
      = (List.range (e + 1 - s)).countP (fun j => decide ((s + 6 + j) % 7 = 5)) := by
    refine List.countP_congr ?_
    intro j _
    have hj : (weekday s + 2 + j) % 7 = 0 ↔ (s + 6 + j) % 7 = 5 := by
      unfold weekday
      omega
    simp only [decide_eq_true_eq]
    exact hj
  have e2 : (List.range (e + 1 - s)).countP (fun j => decide ((weekday s + 1 + j) % 7 = 0))
      = (List.range (e + 1 - s)).countP (fun j => decide ((s + 6 + j) % 7 = 6)) := by
    refine List.countP_congr ?_
    intro j _
    have hj : (weekday s + 1 + j) % 7 = 0 ↔ (s + 6 + j) % 7 = 6 := by
      unfold weekday
      omega
    simp only [decide_eq_true_eq]
    exact hj
  have e3 : (List.range (e + 1 - s)).countP (fun j => decide (weekday (s + j) < 5))
      = (List.range (e + 1 - s)).countP (fun j => decide ((s + 6 + j) % 7 < 5)) := by
    refine List.countP_congr ?_
    intro j _
    have hj : weekday (s + j) < 5 ↔ (s + 6 + j) % 7 < 5 := by
      unfold weekday
      omega
    simp only [decide_eq_true_eq]
    exact hj
  rw [e1] at hsat
  rw [e2] at hsun
  rw [e3]
  omega

/-- C1: For every pair of dates `start ≤ end`, `weekdays_between start end`
(the closed-form Saturday/Sunday-subtraction formula of the source) equals
the brute-force count of days in the inclusive range `[start, end]` whose
weekday is Monday through Friday. -/
theorem weekdays_between_eq_brute (s e : ℕ) (h : s ≤ e) :
    weekdays_between s e = (brute_weekday_count s e : ℤ) :=
  weekdays_between_eq_count s e h

/-- Witness for C1: the week 2024-01-01 (ordinal 738886, a Monday) through
2024-01-07 (ordinal 738892, a Sunday) contains 5 weekdays, and closed form
and brute force agree there. -/
theorem weekdays_between_eq_brute_witness :
    738886 ≤ 738892 ∧
      weekdays_between 738886 738892 = (brute_weekday_count 738886 738892 : ℤ) ∧
      weekdays_between 738886 738892 = 5 :=
  ⟨by decide, weekdays_between_eq_brute 738886 738892 (by decide), by decide⟩

/-- A Python `datetime.date` value: a (year, month, day) triple.  CPython
accepts `1 ≤ year ≤ 9999` with a valid Gregorian month/day. -/
structure CalendarDate where
  year : ℕ
  month : ℕ
  day : ℕ
deriving DecidableEq, Repr

/-- Gregorian leap-year test, as in CPython's `datetime`. -/
def isLeap (y : ℕ) : Bool := y % 4 = 0 && (y % 100 ≠ 0 || y % 400 = 0)

/-- Length of month `m` (1–12) of year `y`, as in CPython's `datetime`. -/
def daysInMonth (y m : ℕ) : ℕ :=
  if m = 2 then (if isLeap y then 29 else 28)
  else if m = 4 ∨ m = 6 ∨ m = 9 ∨ m = 11 then 30
  else 31

/-- Days in year `y` that precede month `m` (CPython `_days_before_month`). -/
def daysBeforeMonth (y m : ℕ) : ℕ :=
  (List.take (m - 1) [31, 28, 31, 30, 31, 30, 31, 31, 30, 31, 30, 31]).sum +
    (if 2 < m ∧ isLeap y then 1 else 0)

/-- Days before January 1 of year `y` (CPython `_days_before_year`). -/
def daysBeforeYear (y : ℕ) : ℕ :=
  365 * (y - 1) + (y - 1) / 4 - (y - 1) / 100 + (y - 1) / 400

/-- Python `date.toordinal()`: the proleptic Gregorian ordinal of a date, with
0001-01-01 as ordinal 1. -/
def toOrdinal (d : CalendarDate) : ℕ :=
  daysBeforeYear d.year + daysBeforeMonth d.year d.month + d.day

/-- Function `next_friday` from the source:
`days_until_friday = (4 - today.weekday()) % 7` (Python `%` is the
nonnegative Euclidean remainder) and `today + timedelta(days=days_until_friday)`. -/
def next_friday (today : ℕ) : ℕ :=
  today + ((4 - (weekday today : ℤ)) % 7).toNat

/-- Result record of `run_short_put`'s prints.  Python renders
`multiplier ** (260.0 / weekdays)` with float exponentiation; the exact
model records the base and the exponent of that power (the other fields are
exact rationals). -/
structure ShortPutMetrics where
  weekdays : ℤ
  capital : ℚ
  maxValue : ℚ
  pctGain : ℚ
  breakEven : ℚ
  annualizedBase : ℚ
  annualizedExponent : ℚ
deriving DecidableEq

/-- Outcome of one `run_short_put` invocation: the reported user error for
`expiry < open`, a `ZeroDivisionError` raised while computing `multiplier`
(float division by `strike = 0`), a `ZeroDivisionError` raised in the
annualization exponent `260.0 / weekdays` when `weekdays = 0`, or the
printed metrics. -/
inductive SPOutcome where
  | expiryBeforeOpen : SPOutcome
  | strikeZeroDivision : SPOutcome
  | annualizationZeroDivision : SPOutcome
  | metrics : ShortPutMetrics → SPOutcome
deriving DecidableEq

/-- Function `run_short_put` from the source.  `expiry = none` models the caller
passing no `--expiry`; the source then uses `next_friday(args.open)`
(Python truthiness: a `date` is always truthy, `None` is falsy). -/
def run_short_put (openDate : ℕ) (expiry : Option ℕ) (strike premium : ℚ) : SPOutcome :=
  let expiry_date := match expiry with
    | some e => e
    | none => next_friday openDate
  if expiry_date < openDate then .expiryBeforeOpen
  else
    let weekdays := weekdays_between openDate expiry_date
    if strike = 0 then .strikeZeroDivision
    else
      let multiplier := (premium - 5/1000) / strike + 1
      if weekdays = 0 then .annualizationZeroDivision
      else
        .metrics
          { weekdays := weekdays
            capital := strike * 100
            maxValue := premium * 100 - 1/2
            pctGain := multiplier - 1
            breakEven := strike - premium
            annualizedBase := multiplier
            annualizedExponent := 260 / (weekdays : ℚ) }

/-- Result record of `run_covered_call`'s prints, with the two float powers
recorded as base/exponent pairs as in `ShortPutMetrics`. -/
structure CoveredCallMetrics where
  weekdays : ℤ
  capital : ℚ
  maxValue : ℚ
  pctMaxGain : ℚ
  lowValue : ℚ
  pctLowGain : ℚ
  maxAnnualizedBase : ℚ
  maxAnnualizedExponent : ℚ
  lowAnnualizedBase : ℚ
  lowAnnualizedExponent : ℚ
deriving DecidableEq

/-- Outcome of one `run_covered_call` invocation (same reading as
`SPOutcome`; here the first `ZeroDivisionError` can come from the divisions
by `basis`). -/
inductive CCOutcome where
  | expiryBeforeOpen : CCOutcome
  | basisZeroDivision : CCOutcome
  | annualizationZeroDivision : CCOutcome
  | metrics : CoveredCallMetrics → CCOutcome
deriving DecidableEq

/-- Function `run_covered_call` from the source.  The basis default is Python
truthiness — `basis = args.basis if args.basis else args.strike` — so both
`None` and `0.0` are replaced by the strike. -/
def run_covered_call (openDate : ℕ) (expiry : Option ℕ) (strike premium : ℚ)
    (basisArg : Option ℚ) : CCOutcome :=
  let expiry_date := match expiry with
    | some e => e
    | none => next_friday openDate
  let basis := match basisArg with
    | some b => if b = 0 then strike else b
    | none => strike
  if expiry_date < openDate then .expiryBeforeOpen
  else
    let weekdays := weekdays_between openDate expiry_date
    if basis = 0 then .basisZeroDivision
    else
      let max_gain := (strike - basis) + (premium - 5/1000)
      let multiplier := 1 + max_gain / basis
      let low_gain := premium - 5/1000
      let low_mult := 1 + low_gain / basis
      if weekdays = 0 then .annualizationZeroDivision
      else
        .metrics
          { weekdays := weekdays
            capital := basis * 100
            maxValue := max_gain * 100
            pctMaxGain := multiplier - 1
            lowValue := low_gain * 100
            pctLowGain := low_mult - 1
            maxAnnualizedBase := multiplier
            maxAnnualizedExponent := 260 / (weekdays : ℚ)
            lowAnnualizedBase := low_mult
            lowAnnualizedExponent := 260 / (weekdays : ℚ) }

/-- C2 counterexample: 2024-01-06 is a Saturday (weekday 5), and for
that date `d` the single inclusive day is itself counted as a Saturday, so
`weekdays_between d d = 0`, not `1` as the claim states. -/
theorem weekdays_between_weekend_same_day_ne_one :
    weekday (toOrdinal ⟨2024, 1, 6⟩) = 5 ∧
      weekdays_between (toOrdinal ⟨2024, 1, 6⟩) (toOrdinal ⟨2024, 1, 6⟩) ≠ 1 ∧
      weekdays_between (toOrdinal ⟨2024, 1, 6⟩) (toOrdinal ⟨2024, 1, 6⟩) = 0 := by
  decide

/-- C2 (amended): For every date `d`, `weekdays_between d d` is `1` when
`d` falls on Monday–Friday and `0` when `d` falls on a Saturday or Sunday. -/
theorem weekdays_between_same_day (d : ℕ) :
    weekdays_between d d = if weekday d < 5 then 1 else 0 := by
  rw [weekdays_between_eq_count d d le_rfl]
  unfold brute_weekday_count
  have h1 : d + 1 - d = 1 := by omega
  rw [h1, List.range_succ, List.range_zero, List.nil_append]
  simp only [List.countP_cons, List.countP_nil, decide_eq_true_eq, Nat.add_zero]
  split_ifs <;> simp

/-- C3 counterexample: With reference date `today` = 2024-01-08 (a
Monday) the next Friday from today is 2024-01-12, but for a resolved open
date 2024-01-01 both calculators, given no expiry, use the Friday following
the *open* date (2024-01-05), and they observably disagree with the claimed
default: the outcomes differ (5 weekdays in market instead of 10). -/
theorem default_expiry_not_from_today :
    next_friday (toOrdinal ⟨2024, 1, 8⟩) = toOrdinal ⟨2024, 1, 12⟩ ∧
      run_short_put (toOrdinal ⟨2024, 1, 1⟩) none 100 2
        ≠ run_short_put (toOrdinal ⟨2024, 1, 1⟩) (some (toOrdinal ⟨2024, 1, 12⟩)) 100 2 ∧
      run_covered_call (toOrdinal ⟨2024, 1, 1⟩) none 100 2 none
        ≠ run_covered_call (toOrdinal ⟨2024, 1, 1⟩) (some (toOrdinal ⟨2024, 1, 12⟩)) 100 2 none := by
  decide

/-- C3 (amended): In both calculators, when the caller supplies no
expiry, the computation behaves exactly as if the expiry were the next
business Friday computed from the *open* date: `(4 - weekday(open)) mod 7`
days after the open date, the open date itself when it is a Friday.  (This
coincides with the claimed "next Friday from today" only when the open date
defaults to today.) -/
theorem default_expiry_is_next_friday_of_open (o : ℕ) (s p : ℚ) (b : Option ℚ) :
    run_short_put o none s p = run_short_put o (some (next_friday o)) s p ∧
      run_covered_call o none s p b = run_covered_call o (some (next_friday o)) s p b ∧
      weekday (next_friday o) = 4 ∧
      o ≤ next_friday o ∧
      next_friday o - o < 7 ∧
      (weekday o = 4 → next_friday o = o) := by
  refine ⟨rfl, rfl, ?_, ?_, ?_, ?_⟩ <;>
    · unfold next_friday weekday
      omega

/-- C4: Valid inputs with `open ≤ expiry` can yield zero weekdays — for
example open = expiry = Saturday 2024-01-06, or the open/expiry pair
(Saturday 2024-01-06, Sunday 2024-01-07) spanning exactly a weekend — and
on such inputs the annualization exponent `260.0 / weekdays` in both
calculators is a division by zero (a raised arithmetic error), not a finite
metric. -/
theorem zero_weekday_annualization_division_by_zero :
    weekdays_between (toOrdinal ⟨2024, 1, 6⟩) (toOrdinal ⟨2024, 1, 6⟩) = 0 ∧
      weekdays_between (toOrdinal ⟨2024, 1, 6⟩) (toOrdinal ⟨2024, 1, 7⟩) = 0 ∧
      run_short_put (toOrdinal ⟨2024, 1, 6⟩) (some (toOrdinal ⟨2024, 1, 6⟩)) 100 2
        = .annualizationZeroDivision ∧
      run_covered_call (toOrdinal ⟨2024, 1, 6⟩) (some (toOrdinal ⟨2024, 1, 7⟩)) 100 2 none
        = .annualizationZeroDivision := by
  decide

lemma run_short_put_eq_metrics (o e : ℕ) (s p : ℚ) (hoe : o ≤ e)
    (hw : weekdays_between o e ≠ 0) (hs : s ≠ 0) :
    run_short_put o (some e) s p = .metrics
      { weekdays := weekdays_between o e
        capital := s * 100
        maxValue := p * 100 - 1/2
        pctGain := ((p - 5/1000) / s + 1) - 1
        breakEven := s - p
        annualizedBase := (p - 5/1000) / s + 1
        annualizedExponent := 260 / ((weekdays_between o e : ℤ) : ℚ) } := by
  simp only [run_short_put, if_neg (Nat.not_lt.mpr hoe), if_neg hs, if_neg hw]

/-- C7: For `open ≤ expiry`, a positive weekday span and a positive
strike, the short-put metrics are exactly the claimed formulas
(`multiplier = (premium - 0.005)/strike + 1`, capital `strike*100`,
max value `premium*100 - 0.5`, pct gain `multiplier - 1`, break-even
`strike - premium`, and the annualized power with base `multiplier` and
exponent `260/weekdays`); in particular the 2024-01-01 → 2024-01-05,
strike 100, premium 2.0 scenario yields 5 weekdays, capital 10000,
max value 199.50, pct gain 1.995 %, break-even 98. -/
theorem short_put_metrics_formulas (o e : ℕ) (s p : ℚ) (hoe : o ≤ e)
    (hw : 0 < weekdays_between o e) (hs : 0 < s) :
    run_short_put o (some e) s p = .metrics
      { weekdays := weekdays_between o e
        capital := s * 100
        maxValue := p * 100 - 1/2
        pctGain := ((p - 5/1000) / s + 1) - 1
        breakEven := s - p
        annualizedBase := (p - 5/1000) / s + 1
        annualizedExponent := 260 / ((weekdays_between o e : ℤ) : ℚ) } ∧
    run_short_put (toOrdinal ⟨2024, 1, 1⟩) (some (toOrdinal ⟨2024, 1, 5⟩)) 100 2 = .metrics
      { weekdays := 5
        capital := 10000
        maxValue := 199.5
        pctGain := 1.995 / 100
        breakEven := 98
        annualizedBase := 1 + 1.995 / 100
        annualizedExponent := 52 } := by
  constructor
  · exact run_short_put_eq_metrics o e s p hoe hw.ne' hs.ne'
  · have hw5 : weekdays_between (toOrdinal ⟨2024, 1, 1⟩) (toOrdinal ⟨2024, 1, 5⟩) = 5 := by
      decide
    have h := run_short_put_eq_metrics (toOrdinal ⟨2024, 1, 1⟩) (toOrdinal ⟨2024, 1, 5⟩)
      100 2 (by decide) (by decide) (by decide)
    rw [h, hw5]
    simp only [SPOutcome.metrics.injEq, ShortPutMetrics.mk.injEq]
    norm_num

/-- Witness for C7: the theorem instantiated at the scenario of §8 of the
spec — open 2024-01-01 (Monday), expiry 2024-01-05 (Friday), strike 100,
premium 2.0. -/
theorem short_put_metrics_formulas_witness :
    run_short_put (toOrdinal ⟨2024, 1, 1⟩) (some (toOrdinal ⟨2024, 1, 5⟩)) 100 2 = .metrics
      { weekdays := 5
        capital := 10000
        maxValue := 199.5
        pctGain := 1.995 / 100
        breakEven := 98
        annualizedBase := 1 + 1.995 / 100
        annualizedExponent := 52 } :=
  (short_put_metrics_formulas (toOrdinal ⟨2024, 1, 1⟩) (toOrdinal ⟨2024, 1, 5⟩) 100 2
    (by decide) (by decide) (by decide)).2

/-- C8: In both calculators (with an explicitly supplied expiry, the
case where the guard can fire), the "expiry before open" user error is
reported — and no metrics are computed — precisely when `expiry < open`;
`expiry = open` passes the guard. -/
theorem expiry_before_open_guard (o e : ℕ) (s p : ℚ) (b : Option ℚ) :
    (run_short_put o (some e) s p = .expiryBeforeOpen ↔ e < o) ∧
      (run_covered_call o (some e) s p b = .expiryBeforeOpen ↔ e < o) := by
  constructor <;>
  · simp only [run_short_put, run_covered_call]
    split_ifs <;> simp_all

lemma run_covered_call_some_eq (o e : ℕ) (s p b : ℚ) (hoe : o ≤ e)
    (hw : weekdays_between o e ≠ 0) (hb : b ≠ 0) :
    run_covered_call o (some e) s p (some b) = .metrics
      { weekdays := weekdays_between o e
        capital := b * 100
        maxValue := ((s - b) + (p - 5/1000)) * 100
        pctMaxGain := (1 + ((s - b) + (p - 5/1000)) / b) - 1
        lowValue := (p - 5/1000) * 100
        pctLowGain := (1 + (p - 5/1000) / b) - 1
        maxAnnualizedBase := 1 + ((s - b) + (p - 5/1000)) / b
        maxAnnualizedExponent := 260 / ((weekdays_between o e : ℤ) : ℚ)
        lowAnnualizedBase := 1 + (p - 5/1000) / b
        lowAnnualizedExponent := 260 / ((weekdays_between o e : ℤ) : ℚ) } := by
  simp only [run_covered_call, if_neg hb, if_neg (Nat.not_lt.mpr hoe), if_neg hw]

lemma run_covered_call_none_eq (o e : ℕ) (s p : ℚ) (hoe : o ≤ e)
    (hw : weekdays_between o e ≠ 0) (hs : s ≠ 0) :
    run_covered_call o (some e) s p none = .metrics
      { weekdays := weekdays_between o e
        capital := s * 100
        maxValue := ((s - s) + (p - 5/1000)) * 100
        pctMaxGain := (1 + ((s - s) + (p - 5/1000)) / s) - 1
        lowValue := (p - 5/1000) * 100
        pctLowGain := (1 + (p - 5/1000) / s) - 1
        maxAnnualizedBase := 1 + ((s - s) + (p - 5/1000)) / s
        maxAnnualizedExponent := 260 / ((weekdays_between o e : ℤ) : ℚ)
        lowAnnualizedBase := 1 + (p - 5/1000) / s
        lowAnnualizedExponent := 260 / ((weekdays_between o e : ℤ) : ℚ) } := by
  simp only [run_covered_call, if_neg (Nat.not_lt.mpr hoe), if_neg hs, if_neg hw]

/-- C9: Covered-call metrics for `open ≤ expiry`, positive weekday span,
positive strike, positive supplied basis: with the basis omitted the
effective basis is the strike (so capital = strike·100), and in general
capital = basis·100, maxGain = (strike − basis) + (premium − 0.005),
multiplier = 1 + maxGain/basis, lowGain = premium − 0.005,
lowMultiplier = 1 + lowGain/basis, pct gains multiplier−1 / lowMultiplier−1,
and both annualized powers have exponent 260/weekdays. -/
theorem covered_call_metrics_formulas (o e : ℕ) (s p b : ℚ) (hoe : o ≤ e)
    (hw : 0 < weekdays_between o e) (hs : 0 < s) (hb : 0 < b) :
    run_covered_call o (some e) s p none = .metrics
      { weekdays := weekdays_between o e
        capital := s * 100
        maxValue := ((s - s) + (p - 5/1000)) * 100
        pctMaxGain := (1 + ((s - s) + (p - 5/1000)) / s) - 1
        lowValue := (p - 5/1000) * 100
        pctLowGain := (1 + (p - 5/1000) / s) - 1
        maxAnnualizedBase := 1 + ((s - s) + (p - 5/1000)) / s
        maxAnnualizedExponent := 260 / ((weekdays_between o e : ℤ) : ℚ)
        lowAnnualizedBase := 1 + (p - 5/1000) / s
        lowAnnualizedExponent := 260 / ((weekdays_between o e : ℤ) : ℚ) } ∧
    run_covered_call o (some e) s p (some b) = .metrics
      { weekdays := weekdays_between o e
        capital := b * 100
        maxValue := ((s - b) + (p - 5/1000)) * 100
        pctMaxGain := (1 + ((s - b) + (p - 5/1000)) / b) - 1
        lowValue := (p - 5/1000) * 100
        pctLowGain := (1 + (p - 5/1000) / b) - 1
        maxAnnualizedBase := 1 + ((s - b) + (p - 5/1000)) / b
        maxAnnualizedExponent := 260 / ((weekdays_between o e : ℤ) : ℚ)
        lowAnnualizedBase := 1 + (p - 5/1000) / b
        lowAnnualizedExponent := 260 / ((weekdays_between o e : ℤ) : ℚ) } :=
  ⟨run_covered_call_none_eq o e s p hoe hw.ne' hs.ne',
    run_covered_call_some_eq o e s p b hoe hw.ne' hb.ne'⟩

/-- Witness for C9: open 2024-01-01, expiry 2024-01-05, strike 100,
premium 2.0, supplied basis 90. -/
theorem covered_call_metrics_formulas_witness :
    run_covered_call (toOrdinal ⟨2024, 1, 1⟩) (some (toOrdinal ⟨2024, 1, 5⟩)) 100 2 none = .metrics
      { weekdays := weekdays_between (toOrdinal ⟨2024, 1, 1⟩) (toOrdinal ⟨2024, 1, 5⟩)
        capital := 100 * 100
        maxValue := ((100 - 100) + (2 - 5/1000)) * 100
        pctMaxGain := (1 + ((100 - 100) + (2 - 5/1000)) / 100) - 1
        lowValue := (2 - 5/1000) * 100
        pctLowGain := (1 + (2 - 5/1000) / 100) - 1
        maxAnnualizedBase := 1 + ((100 - 100) + (2 - 5/1000)) / 100
        maxAnnualizedExponent := 260 / ((weekdays_between (toOrdinal ⟨2024, 1, 1⟩) (toOrdinal ⟨2024, 1, 5⟩) : ℤ) : ℚ)
        lowAnnualizedBase := 1 + (2 - 5/1000) / 100
        lowAnnualizedExponent := 260 / ((weekdays_between (toOrdinal ⟨2024, 1, 1⟩) (toOrdinal ⟨2024, 1, 5⟩) : ℤ) : ℚ) } ∧
    run_covered_call (toOrdinal ⟨2024, 1, 1⟩) (some (toOrdinal ⟨2024, 1, 5⟩)) 100 2 (some 90) = .metrics
      { weekdays := weekdays_between (toOrdinal ⟨2024, 1, 1⟩) (toOrdinal ⟨2024, 1, 5⟩)
        capital := 90 * 100
        maxValue := ((100 - 90) + (2 - 5/1000)) * 100
        pctMaxGain := (1 + ((100 - 90) + (2 - 5/1000)) / 90) - 1
        lowValue := (2 - 5/1000) * 100
        pctLowGain := (1 + (2 - 5/1000) / 90) - 1
        maxAnnualizedBase := 1 + ((100 - 90) + (2 - 5/1000)) / 90
        maxAnnualizedExponent := 260 / ((weekdays_between (toOrdinal ⟨2024, 1, 1⟩) (toOrdinal ⟨2024, 1, 5⟩) : ℤ) : ℚ)
        lowAnnualizedBase := 1 + (2 - 5/1000) / 90
        lowAnnualizedExponent := 260 / ((weekdays_between (toOrdinal ⟨2024, 1, 1⟩) (toOrdinal ⟨2024, 1, 5⟩) : ℤ) : ℚ) } :=
  covered_call_metrics_formulas (toOrdinal ⟨2024, 1, 1⟩) (toOrdinal ⟨2024, 1, 5⟩) 100 2 90
    (by decide) (by decide) (by decide) (by decide)

/-- The "Capital" line of a covered-call outcome, when metrics were printed. -/
def ccCapital : CCOutcome → Option ℚ
  | .metrics m => some m.capital
  | _ => none

/-- C10: A supplied cost basis of `0.0` is treated exactly like an
absent basis — the substitution `basis = args.basis if args.basis else
args.strike` is a truthiness test, not a `None` test — so for a positive
strike the outcome with basis `0.0` equals the outcome with no basis, the
divisions by the effective basis never divide by zero, and the printed
capital is `strike * 100`. -/
theorem covered_call_zero_basis_is_default (o : ℕ) (ex : Option ℕ) (e : ℕ) (s p : ℚ)
    (hs : 0 < s) (hoe : o ≤ e) (hw : 0 < weekdays_between o e) :
    run_covered_call o ex s p (some 0) = run_covered_call o ex s p none ∧
      run_covered_call o ex s p (some 0) ≠ .basisZeroDivision ∧
      ccCapital (run_covered_call o (some e) s p (some 0)) = some (s * 100) := by
  refine ⟨rfl, ?_, ?_⟩
  · have h1 : run_covered_call o ex s p (some 0) = run_covered_call o ex s p none := rfl
    rw [h1]
    simp only [run_covered_call]
    split_ifs with h2 h3 h4 <;> simp_all
  · have h1 : run_covered_call o (some e) s p (some 0)
        = run_covered_call o (some e) s p none := rfl
    rw [h1, run_covered_call_none_eq o e s p hoe hw.ne' hs.ne']
    rfl

/-- Witness for C10: open 2024-01-01, expiry 2024-01-05, strike 100,
premium 2.0, supplied basis 0.0. -/
theorem covered_call_zero_basis_is_default_witness :
    run_covered_call (toOrdinal ⟨2024, 1, 1⟩) (some (toOrdinal ⟨2024, 1, 5⟩)) 100 2 (some 0)
        = run_covered_call (toOrdinal ⟨2024, 1, 1⟩) (some (toOrdinal ⟨2024, 1, 5⟩)) 100 2 none ∧
      run_covered_call (toOrdinal ⟨2024, 1, 1⟩) (some (toOrdinal ⟨2024, 1, 5⟩)) 100 2 (some 0)
        ≠ .basisZeroDivision ∧
      ccCapital (run_covered_call (toOrdinal ⟨2024, 1, 1⟩) (some (toOrdinal ⟨2024, 1, 5⟩)) 100 2 (some 0))
        = some (100 * 100) :=
  covered_call_zero_basis_is_default (toOrdinal ⟨2024, 1, 1⟩) (some (toOrdinal ⟨2024, 1, 5⟩))
    (toOrdinal ⟨2024, 1, 5⟩) 100 2 (by decide) (by decide) (by decide)

/-- ASCII decimal digit test. -/
def isDigitC (c : Char) : Bool := '0' ≤ c && c ≤ '9'

/-- Numeric value of a digit string (most significant digit first). -/
def digitsToNat (cs : List Char) : ℕ :=
  cs.foldl (fun a c => 10 * a + (c.toNat - 48)) 0

/-- A nonempty run of ASCII digits, with its value. -/
def digitsOpt (cs : List Char) : Option ℕ :=
  if cs ≠ [] ∧ cs.all isDigitC then some (digitsToNat cs) else none

/-- The core of Python's `int(s)` on a string literal: an optional `+` or
`-` sign followed by a nonempty run of digits.  (CPython additionally
strips surrounding whitespace and allows `_` digit separators and non-ASCII
digits; no claim depends on those, and they are not modelled.) -/
def pyInt (cs : List Char) : Option ℤ :=
  match cs with
  | [] => none
  | c :: rest =>
    if c = '+' then (digitsOpt rest).map (fun n => (n : ℤ))
    else if c = '-' then (digitsOpt rest).map (fun n => -(n : ℤ))
    else (digitsOpt (c :: rest)).map (fun n => (n : ℤ))

/-- Python `date_arg.split('-')`: split on every `-`, keeping empty segments. -/
def splitDash : List Char → List (List Char)
  | [] => [[]]
  | c :: rest =>
    if c = '-' then [] :: splitDash rest
    else
      match splitDash rest with
      | [] => [[c]]
      | h :: t => (c :: h) :: t

/-- The comprehension `[int(part) for part in ...]`: all segments parsed as Python ints, or
failure if any one raises `ValueError`. -/
def parseParts : List (List Char) → Option (List ℤ)
  | [] => some []
  | p :: rest =>
    match pyInt p, parseParts rest with
    | some v, some vs => some (v :: vs)
    | _, _ => none

/-- CPython's `date` ordinal range: `date.min.toordinal() = 1` and
`date.max.toordinal() = 3652059` (9999-12-31); `today + timedelta(days=n)`
raises `OverflowError` outside it. -/
def inOrdinalRange (o : ℤ) : Bool := decide (1 ≤ o) && decide (o ≤ 3652059)

/-- The validity test of CPython's `date(year, month, day)` constructor:
`1 ≤ year ≤ 9999`, `1 ≤ month ≤ 12`, `1 ≤ day ≤ days_in_month(year, month)`. -/
def isValidDate (y m d : ℤ) : Bool :=
  decide (1 ≤ y) && decide (y ≤ 9999) && decide (1 ≤ m) && decide (m ≤ 12) &&
    decide (1 ≤ d) && decide (d ≤ (daysInMonth y.toNat m.toNat : ℤ))

/-- Python `date(*parts)`: the ordinal of the constructed date, or `none` when the
constructor raises `ValueError`. -/
def dateFromParts (y m d : ℤ) : Option ℕ :=
  if isValidDate y m d then some (toOrdinal ⟨y.toNat, m.toNat, d.toNat⟩) else none

/-- Python `date_arg.startswith('t')`. -/
def startsWithT : List Char → Bool
  | [] => false
  | c :: _ => c = 't'

/-- Function `handle_date_input` from the source, returning the ordinal of the
resolved date, `none` when Python raises (a `ValueError` from a malformed
expression or an invalid calendar date, or an `OverflowError` from a `t±N`
shift leaving the `date` range).  A `none` expression models
`date_arg is None`. -/
def handle_date_input (date_arg : Option (List Char)) (today : CalendarDate) : Option ℕ :=
  match date_arg with
  | none => some (toOrdinal today)
  | some cs =>
    if startsWithT cs then
      match pyInt cs.tail with
      | some n =>
        let o : ℤ := (toOrdinal today : ℤ) + n
        if inOrdinalRange o then some o.toNat else none
      | none => none
    else
      match parseParts (splitDash cs) with
      | some [d] => dateFromParts (today.year : ℤ) (today.month : ℤ) d
      | some [m, d] => dateFromParts (today.year : ℤ) m d
      | some [y, m, d] => dateFromParts y m d
      | _ => none

lemma digitsOpt_ne_nil (cs : List Char) (v : ℕ) (h : digitsOpt cs = some v) : cs ≠ [] := by
  intro hnil
  rw [hnil] at h
  simp [digitsOpt] at h

lemma digitsOpt_all (cs : List Char) (v : ℕ) (h : digitsOpt cs = some v) :
    cs.all isDigitC = true := by
  by_contra hno
  simp [digitsOpt, hno] at h

lemma digitsOpt_not_dash (cs : List Char) (v : ℕ) (h : digitsOpt cs = some v) : '-' ∉ cs := by
  intro hm
  have hall := digitsOpt_all cs v h
  rw [List.all_eq_true] at hall
  have := hall _ hm
  simp [isDigitC] at this

lemma digitsOpt_head_digit (c : Char) (r : List Char) (v : ℕ)
    (h : digitsOpt (c :: r) = some v) : isDigitC c = true := by
  have hall := digitsOpt_all _ v h
  rw [List.all_eq_true] at hall
  exact hall c (by simp)

lemma startsWithT_digits (cs : List Char) (v : ℕ) (h : digitsOpt cs = some v) :
    startsWithT cs = false := by
  cases cs with
  | nil => rfl
  | cons c r =>
    have hc := digitsOpt_head_digit c r v h
    have hct : ¬(c = 't') := by
      intro e
      rw [e] at hc
      simp [isDigitC] at hc
    simp [startsWithT, hct]

lemma pyInt_plus (ds : List Char) (v : ℕ) (h : digitsOpt ds = some v) :
    pyInt ('+' :: ds) = some (v : ℤ) := by
  simp [pyInt, h]

lemma pyInt_minus (ds : List Char) (v : ℕ) (h : digitsOpt ds = some v) :
    pyInt ('-' :: ds) = some (-(v : ℤ)) := by
  simp [pyInt, h]

lemma pyInt_digits (cs : List Char) (v : ℕ) (h : digitsOpt cs = some v) :
    pyInt cs = some (v : ℤ) := by
  cases cs with
  | nil => exact absurd rfl (digitsOpt_ne_nil _ v h)
  | cons c r =>
    have hc := digitsOpt_head_digit c r v h
    have hcp : ¬(c = '+') := by
      intro e
      rw [e] at hc
      simp [isDigitC] at hc
    have hcm : ¬(c = '-') := by
      intro e
      rw [e] at hc
      simp [isDigitC] at hc
    simp [pyInt, hcp, hcm, h]

lemma splitDash_no_dash (cs : List Char) (h : '-' ∉ cs) : splitDash cs = [cs] := by
  induction cs with
  | nil => rfl
  | cons c r ih =>
    have hc : ¬(c = '-') := by
      intro e
      exact h (by simp [e])
    have hr : '-' ∉ r := by
      intro hm
      exact h (by simp [hm])
    simp [splitDash, hc, ih hr]

lemma splitDash_append (s1 s2 : List Char) (h : '-' ∉ s1) :
    splitDash (s1 ++ '-' :: s2) = s1 :: splitDash s2 := by
  induction s1 with
  | nil => simp [splitDash]
  | cons c r ih =>
    have hc : ¬(c = '-') := by
      intro e
      exact h (by simp [e])
    have hr : '-' ∉ r := by
      intro hm
      exact h (by simp [hm])
    simp [splitDash, hc, ih hr]

lemma startsWithT_append (s1 s2 : List Char) (h : s1 ≠ []) :
    startsWithT (s1 ++ s2) = startsWithT s1 := by
  cases s1 with
  | nil => exact absurd rfl h
  | cons c r => rfl

lemma handle_t_branch (today : CalendarDate) (rest : List Char) (n : ℤ)
    (h : pyInt rest = some n) (hr : inOrdinalRange ((toOrdinal today : ℤ) + n) = true) :
    handle_date_input (some ('t' :: rest)) today
      = some (((toOrdinal today : ℤ) + n).toNat) := by
  have hT : startsWithT ('t' :: rest) = true := rfl
  simp only [handle_date_input, hT, if_true, List.tail_cons, h, hr]

lemma dateFromParts_valid (y m d : ℤ) (h : isValidDate y m d = true) :
    dateFromParts y m d = some (toOrdinal ⟨y.toNat, m.toNat, d.toNat⟩) := by
  simp [dateFromParts, h]

lemma handle_one_segment (today : CalendarDate) (sD : List Char) (vD : ℕ)
    (hD : digitsOpt sD = some vD) :
    handle_date_input (some sD) today
      = dateFromParts (today.year : ℤ) (today.month : ℤ) (vD : ℤ) := by
  have hT := startsWithT_digits sD vD hD
  have hsplit := splitDash_no_dash sD (digitsOpt_not_dash sD vD hD)
  simp only [handle_date_input, hT, Bool.false_eq_true, if_false, hsplit]
  simp [parseParts, pyInt_digits sD vD hD]

/-- C6: Each recognized shape resolves as described, for every reference
date `today` (of ordinal at least 1) and whenever the resulting date is a
valid calendar date (for the `t±N` shifts: stays within the `date` range):
absent → `today`; `"t+N"` → `today + N` days; `"t-N"` → `today − N` days;
one digit segment `DD` → (today.year, today.month, DD); two segments
`MM-DD` → (today.year, MM, DD); three segments `YYYY-MM-DD` →
(YYYY, MM, DD). -/
theorem resolve_recognized_shapes (today : CalendarDate)
    (dsp dsm sD sM sD2 sY sM3 sD3 : List Char)
    (np nm vD vM vD2 vY vM3 vD3 : ℕ)
    (h1 : 1 ≤ toOrdinal today)
    (hp : digitsOpt dsp = some np)
    (hpr : toOrdinal today + np ≤ 3652059)
    (hm : digitsOpt dsm = some nm)
    (hmr : nm < toOrdinal today)
    (hmr2 : toOrdinal today - nm ≤ 3652059)
    (hD : digitsOpt sD = some vD)
    (hDv : isValidDate (today.year : ℤ) (today.month : ℤ) (vD : ℤ) = true)
    (hM1 : digitsOpt sM = some vM)
    (hD2 : digitsOpt sD2 = some vD2)
    (hMv : isValidDate (today.year : ℤ) (vM : ℤ) (vD2 : ℤ) = true)
    (hY : digitsOpt sY = some vY)
    (hM3 : digitsOpt sM3 = some vM3)
    (hD3 : digitsOpt sD3 = some vD3)
    (hYv : isValidDate (vY : ℤ) (vM3 : ℤ) (vD3 : ℤ) = true) :
    handle_date_input none today = some (toOrdinal today) ∧
      handle_date_input (some ('t' :: '+' :: dsp)) today = some (toOrdinal today + np) ∧
      handle_date_input (some ('t' :: '-' :: dsm)) today = some (toOrdinal today - nm) ∧
      handle_date_input (some sD) today
        = some (toOrdinal ⟨today.year, today.month, vD⟩) ∧
      handle_date_input (some (sM ++ '-' :: sD2)) today
        = some (toOrdinal ⟨today.year, vM, vD2⟩) ∧
      handle_date_input (some (sY ++ '-' :: (sM3 ++ '-' :: sD3))) today
        = some (toOrdinal ⟨vY, vM3, vD3⟩) := by
  refine ⟨rfl, ?_, ?_, ?_, ?_, ?_⟩
  · have hrange : inOrdinalRange ((toOrdinal today : ℤ) + (np : ℤ)) = true := by
      unfold inOrdinalRange
      simp only [Bool.and_eq_true, decide_eq_true_eq]
      omega
    rw [handle_t_branch today ('+' :: dsp) (np : ℤ) (pyInt_plus dsp np hp) hrange]
    congr 1 <;> omega
  · have hrange : inOrdinalRange ((toOrdinal today : ℤ) + -(nm : ℤ)) = true := by
      unfold inOrdinalRange
      simp only [Bool.and_eq_true, decide_eq_true_eq]
      omega
    rw [handle_t_branch today ('-' :: dsm) (-(nm : ℤ)) (pyInt_minus dsm nm hm) hrange]
    congr 1 <;> omega
  · rw [handle_one_segment today sD vD hD, dateFromParts_valid _ _ _ hDv]
    simp
  · have hne := digitsOpt_ne_nil sM vM hM1
    have hT : startsWithT (sM ++ '-' :: sD2) = false := by
      rw [startsWithT_append _ _ hne]
      exact startsWithT_digits sM vM hM1
    have hsplit : splitDash (sM ++ '-' :: sD2) = [sM, sD2] := by
      rw [splitDash_append _ _ (digitsOpt_not_dash sM vM hM1),
        splitDash_no_dash sD2 (digitsOpt_not_dash sD2 vD2 hD2)]
    simp only [handle_date_input, hT, Bool.false_eq_true, if_false, hsplit]
    simp [parseParts, pyInt_digits sM vM hM1, pyInt_digits sD2 vD2 hD2,
      dateFromParts_valid _ _ _ hMv]
  · have hne := digitsOpt_ne_nil sY vY hY
    have hT : startsWithT (sY ++ '-' :: (sM3 ++ '-' :: sD3)) = false := by
      rw [startsWithT_append _ _ hne]
      exact startsWithT_digits sY vY hY
    have hsplit : splitDash (sY ++ '-' :: (sM3 ++ '-' :: sD3)) = [sY, sM3, sD3] := by
      rw [splitDash_append _ _ (digitsOpt_not_dash sY vY hY),
        splitDash_append _ _ (digitsOpt_not_dash sM3 vM3 hM3),
        splitDash_no_dash sD3 (digitsOpt_not_dash sD3 vD3 hD3)]
    simp only [handle_date_input, hT, Bool.false_eq_true, if_false, hsplit]
    simp [parseParts, pyInt_digits sY vY hY, pyInt_digits sM3 vM3 hM3,
      pyInt_digits sD3 vD3 hD3, dateFromParts_valid _ _ _ hYv]

/-- Witness for C6: reference date 2024-01-15, expressions `t+0`, `t-7`,
`15`, `03-15` and `2024-03-15` (the spec's own test vectors). -/
theorem resolve_recognized_shapes_witness :
    handle_date_input none ⟨2024, 1, 15⟩ = some (toOrdinal ⟨2024, 1, 15⟩) ∧
      handle_date_input (some ['t', '+', '0']) ⟨2024, 1, 15⟩
        = some (toOrdinal ⟨2024, 1, 15⟩ + 0) ∧
      handle_date_input (some ['t', '-', '7']) ⟨2024, 1, 15⟩
        = some (toOrdinal ⟨2024, 1, 15⟩ - 7) ∧
      handle_date_input (some ['1', '5']) ⟨2024, 1, 15⟩
        = some (toOrdinal ⟨2024, 1, 15⟩) ∧
      handle_date_input (some ['0', '3', '-', '1', '5']) ⟨2024, 1, 15⟩
        = some (toOrdinal ⟨2024, 3, 15⟩) ∧
      handle_date_input (some ['2', '0', '2', '4', '-', '0', '3', '-', '1', '5']) ⟨2024, 1, 15⟩
        = some (toOrdinal ⟨2024, 3, 15⟩) :=
  resolve_recognized_shapes ⟨2024, 1, 15⟩
    ['0'] ['7'] ['1', '5'] ['0', '3'] ['1', '5'] ['2', '0', '2', '4'] ['0', '3'] ['1', '5']
    0 7 15 3 15 2024 3 15
    (by decide) (by decide) (by decide) (by decide) (by decide) (by decide)
    (by decide) (by decide) (by decide) (by decide) (by decide) (by decide)
    (by decide) (by decide) (by decide)

/-- The five recognized shapes exactly as claim C5 words them — absent;
`"t±N"` with a **mandatory** `+`/`-` sign and nonnegative integer `N`;
`"DD"`; `"MM-DD"`; `"YYYY-MM-DD"` with integer segments — combined with
validity of the resulting date (for the shifts: the `date` range).  This is
a spec-side definition, written from the claim, used only to state C5. -/
def claimShape (date_arg : Option (List Char)) (today : CalendarDate) : Bool :=
  match date_arg with
  | none => true
  | some ('t' :: '+' :: ds) =>
    (digitsOpt ds).isSome && inOrdinalRange ((toOrdinal today : ℤ) + (digitsToNat ds : ℤ))
  | some ('t' :: '-' :: ds) =>
    (digitsOpt ds).isSome && inOrdinalRange ((toOrdinal today : ℤ) - (digitsToNat ds : ℤ))
  | some cs =>
    match parseParts (splitDash cs) with
    | some [d] => isValidDate (today.year : ℤ) (today.month : ℤ) d
    | some [m, d] => isValidDate (today.year : ℤ) m d
    | some [y, m, d] => isValidDate y m d
    | _ => false

/-- The recognized-expression predicate of the amended claim C5: absent, or
`t` followed by an *optionally* signed integer whose day shift stays inside
the `date` range, or one to three `-`-separated integer segments forming a
valid Gregorian date.  Spec-side definition restating §3/§4.1 of the spec
with the sign of the `t` shape optional. -/
def recognizedShape (date_arg : Option (List Char)) (today : CalendarDate) : Bool :=
  match date_arg with
  | none => true
  | some cs =>
    if startsWithT cs then
      match pyInt cs.tail with
      | some n => inOrdinalRange ((toOrdinal today : ℤ) + n)
      | none => false
    else
      match parseParts (splitDash cs) with
      | some [d] => isValidDate (today.year : ℤ) (today.month : ℤ) d
      | some [m, d] => isValidDate (today.year : ℤ) m d
      | some [y, m, d] => isValidDate y m d
      | _ => false

/-- C5 counterexample: The expression `"t5"` is not one of the five
shapes the claim lists (its `t` shift has no `+`/`-` sign, and it is not an
integer-segment date), yet `handle_date_input` resolves it successfully —
`int("5")` accepts an unsigned literal — to today + 5 days.  So the claim's
"fails exactly when not one of the five shapes" is false as stated. -/
theorem resolve_accepts_unsigned_t_shift :
    claimShape (some ['t', '5']) ⟨2024, 1, 15⟩ = false ∧
      handle_date_input (some ['t', '5']) ⟨2024, 1, 15⟩
        = some (toOrdinal ⟨2024, 1, 15⟩ + 5) := by
  decide

lemma dateFromParts_isSome (y m d : ℤ) :
    (dateFromParts y m d).isSome = isValidDate y m d := by
  unfold dateFromParts
  split <;> simp_all

lemma feb30_invalid (y : ℤ) : isValidDate y 2 30 = false := by
  have h2 : (2 : ℤ).toNat = 2 := rfl
  unfold isValidDate
  rw [h2]
  unfold daysInMonth
  cases hL : isLeap y.toNat <;> simp [hL]

/-- C5 (amended): `handle_date_input` succeeds exactly on the
recognized shapes with the `t` shape's sign optional (`"tN"` is accepted
too, the remainder parsed as a Python signed-integer literal) and with the
resulting date valid; on everything else — unparseable expressions, wrong
segment counts, or invalid calendar dates — it fails.  In particular
`"02-30"` fails for every reference date (February never has 30 days). -/
theorem resolve_fails_iff_unrecognized (a : Option (List Char)) (today : CalendarDate) :
    (handle_date_input a today).isSome = recognizedShape a today ∧
      handle_date_input (some ['0', '2', '-', '3', '0']) today = none := by
  constructor
  · cases a with
    | none => rfl
    | some cs =>
      simp only [handle_date_input, recognizedShape]
      by_cases hT : startsWithT cs
      · simp only [hT, if_true]
        cases hP : pyInt cs.tail with
        | none => simp
        | some n =>
          simp only []
          split <;> simp_all
      · simp only [hT, Bool.false_eq_true, if_false]
        cases hM : parseParts (splitDash cs) with
        | none => simp
        | some l =>
          rcases l with _ | ⟨p1, _ | ⟨p2, _ | ⟨p3, _ | t⟩⟩⟩ <;>
            simp [dateFromParts_isSome]
  · have hsplit : splitDash ['0', '2', '-', '3', '0'] = [['0', '2'], ['3', '0']] := rfl
    have hparse : parseParts (splitDash ['0', '2', '-', '3', '0']) = some [2, 30] := rfl
    have hT : startsWithT ['0', '2', '-', '3', '0'] = false := rfl
    simp only [handle_date_input, hT, Bool.false_eq_true, if_false, hparse]
    simp [dateFromParts, feb30_invalid]

/-- Witness for C3 (amended): open date 2024-01-05, itself a Friday, with
strike 100 and premium 2; the default expiry is that same Friday. -/
theorem default_expiry_is_next_friday_of_open_witness :
    run_short_put (toOrdinal ⟨2024, 1, 5⟩) none 100 2
        = run_short_put (toOrdinal ⟨2024, 1, 5⟩)
            (some (next_friday (toOrdinal ⟨2024, 1, 5⟩))) 100 2 ∧
      weekday (next_friday (toOrdinal ⟨2024, 1, 5⟩)) = 4 ∧
      next_friday (toOrdinal ⟨2024, 1, 5⟩) = toOrdinal ⟨2024, 1, 5⟩ :=
  ⟨(default_expiry_is_next_friday_of_open (toOrdinal ⟨2024, 1, 5⟩) 100 2 none).1,
    (default_expiry_is_next_friday_of_open (toOrdinal ⟨2024, 1, 5⟩) 100 2 none).2.2.1,
    (default_expiry_is_next_friday_of_open (toOrdinal ⟨2024, 1, 5⟩) 100 2 none).2.2.2.2.2
      (by decide)⟩
